import Mathlib

/-!
Verification of the RunPod automation scripts (start_a100_pod.py,
list_network_volumes.py, list_ssh_keys.py).

The scripts manipulate decoded JSON responses (Python dicts, lists,
strings, ints and None).  We embed those values as `PyVal` and translate
each Python function into a Lean function over `PyVal`, with network and
subprocess effects made explicit as input data (the HTTP response an
attempt receives, the outcome a subprocess produces).  Fatal paths
(sys.exit) become explicit result constructors.
-/

namespace Runpod

/-- A decoded JSON value as produced by response.json in Python.
Python None is `null`.  Dicts are association lists keyed by strings. -/
inductive PyVal where
  | null
  | bool (b : Bool)
  | int (n : Int)
  | str (s : String)
  | list (xs : List PyVal)
  | dict (fields : List (String × PyVal))
deriving Repr

/-- Python truthiness: None, False, 0, empty string, empty list and empty
dict are falsy; everything else is truthy. -/
def PyVal.truthy : PyVal → Bool
  | .null => false
  | .bool b => b
  | .int n => n != 0
  | .str s => s != ""
  | .list xs => !xs.isEmpty
  | .dict fields => !fields.isEmpty

/-- Python dict.get k (with default None): None when the key is absent or
the value is not a dict.  The scripts only call .get on dict values. -/
def PyVal.get (v : PyVal) (k : String) : PyVal :=
  match v with
  | .dict fields => (List.lookup k fields).getD PyVal.null
  | _ => PyVal.null

/-- Python dict.get k default. -/
def PyVal.getD (v : PyVal) (k : String) (dflt : PyVal) : PyVal :=
  match v with
  | .dict fields => (List.lookup k fields).getD dflt
  | _ => dflt

/-- Python membership test k in v for a dict (key presence, whatever the
value, including None). -/
def PyVal.hasKey (v : PyVal) (k : String) : Bool :=
  match v with
  | .dict fields => (List.lookup k fields).isSome
  | _ => false

/-- The underlying list of a JSON array (iteration target). -/
def PyVal.asList : PyVal → List PyVal
  | .list xs => xs
  | _ => []

/-- Python x is None. -/
def PyVal.isNull : PyVal → Bool
  | .null => true
  | _ => false

/-- Python x == n for an integer literal n (true only on an equal int). -/
def PyVal.eqInt (v : PyVal) (n : Int) : Bool :=
  match v with
  | .int m => m == n
  | _ => false

/-- Python numeric values accepted by a float format spec such as :.3f
(ints and bools format; None, strings and containers raise). -/
def PyVal.isNumeric : PyVal → Bool
  | .int _ => true
  | .bool _ => true
  | _ => false

/-- Python str(v) for the scalar values the scripts interpolate.  The
scripts only ever stringify None, numbers and strings; container
rendering is abbreviated here (it is non-empty either way, and no code
path stringifies a container). -/
def pyStr : PyVal → String
  | .null => "None"
  | .bool true => "True"
  | .bool false => "False"
  | .int n => toString n
  | .str s => s
  | .list _ => "[list]"
  | .dict _ => "[dict]"

/-- An HTTP response as seen by requests.post: status code, raw text, and
the decoded JSON body. -/
structure HttpResponse where
  status_code : Nat
  text : String
  body : PyVal

/-- The exceptions graphql_request raises: a transport error for a
non-200 HTTP status, a remote error for a GraphQL errors payload, and
the other ad-hoc exceptions the callers raise. -/
inductive ApiError where
  | transport (status : Nat) (text : String)
  | remote (payload : PyVal)
  | unexpected (msg : String)

/-- PodManager.graphql_request (start_a100_pod.py lines 58-80): raise on
status_code != 200, then raise on an errors key in the decoded body,
otherwise return the decoded body. -/
def graphql_request (resp : HttpResponse) : Except ApiError PyVal :=
  if resp.status_code ≠ 200 then
    Except.error (ApiError.transport resp.status_code resp.text)
  else if resp.body.hasKey "errors" then
    Except.error (ApiError.remote (resp.body.get "errors"))
  else
    Except.ok resp.body

/-- PodManager.get_pod_info (lines 163-197): issue the pod query, then
return result["data"]["pod"] when both keys are present, else raise. -/
def get_pod_info (resp : HttpResponse) : Except ApiError PyVal :=
  match graphql_request resp with
  | Except.error e => Except.error e
  | Except.ok result =>
    if result.hasKey "data" && (result.get "data").hasKey "pod" then
      Except.ok ((result.get "data").get "pod")
    else
      Except.error (ApiError.unexpected "Failed to get pod info")

/-- The result of a bounded polling loop: the value obtained, or a fatal
timeout (sys.exit(1)).  `calls` counts the get_pod_info attempts the loop
actually performed. -/
inductive PollOutcome (α : Type) where
  | success (value : α) (calls : Nat)
  | timeout (calls : Nat)

/-- Add one performed attempt to an outcome. -/
def PollOutcome.bump {α : Type} : PollOutcome α → PollOutcome α
  | .success v c => .success v (c + 1)
  | .timeout c => .timeout (c + 1)

/-- The Phase A readiness predicate (line 208): the pod is considered
running as soon as pod_info.get("runtime") is truthy. -/
def pod_running_check (pod_info : PyVal) : Bool :=
  (pod_info.get "runtime").truthy

/-- The body of wait_for_pod_running (lines 203-217): each iteration
fetches pod info (one attempt); an exception or a not-ready response
consumes the attempt and the loop continues; exhausting the budget is a
fatal timeout (lines 219-220).  `responses` gives the HTTP response the
attempt numbered `attempt` receives. -/
def wait_loop (responses : Nat → HttpResponse) : Nat → Nat → PollOutcome Unit
  | _, 0 => .timeout 0
  | attempt, remaining + 1 =>
    match get_pod_info (responses attempt) with
    | Except.ok pod_info =>
      if pod_running_check pod_info then .success () 1
      else (wait_loop responses (attempt + 1) remaining).bump
    | Except.error _ => (wait_loop responses (attempt + 1) remaining).bump

/-- PodManager.wait_for_pod_running (lines 199-220), default budget 60. -/
def wait_for_pod_running (responses : Nat → HttpResponse)
    (max_attempts : Nat := 60) : PollOutcome Unit :=
  wait_loop responses 1 max_attempts

/-- One attempt of Phase B either returns the SSH host and port or asks
the loop to retry. -/
inductive AttemptResult where
  | success (host : PyVal) (port : String)
  | retry
deriving Repr

/-- The port scan of get_ssh_details (lines 241-244): the first entry of
the ports list whose privatePort equals 22. -/
def find_ssh_port : List PyVal → Option PyVal
  | [] => Option.none
  | p :: ps => if (p.get "privatePort").eqInt 22 then some p else find_ssh_port ps

/-- The Phase B readiness check of get_ssh_details (lines 232-263),
applied to one pod-info value: retry unless runtime and runtime.ports are
truthy; find the privatePort-22 entry (retry when absent); read its ip
and str(entry.get("publicPort", 22)); succeed when the ip is truthy and
the port string is non-empty, else report incomplete details and retry. -/
def ssh_ready_check (pod_info : PyVal) : AttemptResult :=
  if !(pod_info.get "runtime").truthy || !((pod_info.get "runtime").get "ports").truthy then
    .retry
  else
    match find_ssh_port ((pod_info.get "runtime").get "ports").asList with
    | Option.none => .retry
    | some entry =>
      let ssh_host := entry.get "ip"
      let ssh_port := pyStr (entry.getD "publicPort" (PyVal.int 22))
      if ssh_host.truthy && (ssh_port != "") then .success ssh_host ssh_port
      else .retry

/-- One full Phase B attempt (lines 228-267): fetch pod info (an
exception consumes the attempt and retries), then run the readiness
check. -/
def ssh_attempt (resp : HttpResponse) : AttemptResult :=
  match get_pod_info resp with
  | Except.error _ => AttemptResult.retry
  | Except.ok pod_info => ssh_ready_check pod_info

/-- The Phase B polling loop of get_ssh_details. -/
def ssh_loop (responses : Nat → HttpResponse) : Nat → Nat → PollOutcome (PyVal × String)
  | _, 0 => .timeout 0
  | attempt, remaining + 1 =>
    match ssh_attempt (responses attempt) with
    | AttemptResult.success host port => .success (host, port) 1
    | AttemptResult.retry => (ssh_loop responses (attempt + 1) remaining).bump

/-- PodManager.get_ssh_details (lines 222-270): max_attempts is 40; the
loop exhausting its budget is a fatal timeout (lines 269-270). -/
def get_ssh_details (responses : Nat → HttpResponse) : PollOutcome (PyVal × String) :=
  ssh_loop responses 1 40

/-- The result of create_pod: the pod id and reported hourly cost, or a
fatal exit (every exception in the body is caught and turned into
sys.exit(1), lines 159-161). -/
inductive CreateResult where
  | ok (pod_id : PyVal) (reported_cost : PyVal)
  | fatalExit (code : Nat)

/-- PodManager.create_pod (lines 82-161): issue the deploy mutation; on a
malformed response (missing data / podFindAndDeployOnDemand / id keys)
raise, on a None costPerHr raise ValueError; every raise is caught by the
enclosing try and becomes sys.exit(1).  On success the id is returned and
the cost printed with a :.3f format (which itself raises, hence exits, on
a non-numeric cost). -/
def create_pod (resp : HttpResponse) : CreateResult :=
  match graphql_request resp with
  | Except.error _ => CreateResult.fatalExit 1
  | Except.ok result =>
    if !(result.hasKey "data" && (result.get "data").hasKey "podFindAndDeployOnDemand") then
      CreateResult.fatalExit 1
    else
      let pod_data := (result.get "data").get "podFindAndDeployOnDemand"
      if !pod_data.hasKey "id" then CreateResult.fatalExit 1
      else if (pod_data.get "costPerHr").isNull then CreateResult.fatalExit 1
      else if !(pod_data.get "costPerHr").isNumeric then CreateResult.fatalExit 1
      else CreateResult.ok (pod_data.get "id") (pod_data.get "costPerHr")

/-- A completed subprocess.run: return code, stdout and stderr
(capture_output=True, text=True). -/
structure SubprocResult where
  returncode : Int
  stdout : String
  stderr : String

/-- What a subprocess invocation does as seen by the calling code: either
it completes with a result, or subprocess.run raises (TimeoutExpired,
FileNotFoundError, ...). -/
inductive SubprocOutcome where
  | completed (r : SubprocResult)
  | raised (msg : String)

/-- The try-block of add_to_known_hosts (lines 279-293): run ssh-keyscan;
when it completes with return code 0 and truthy (non-empty) stdout,
append the stdout to the known_hosts file; otherwise warn and leave the
file alone.  A raise from subprocess.run propagates out of the block. -/
def keyscan_attempt (known_hosts : String) (scan : SubprocOutcome) :
    Except String (String × Bool) :=
  match scan with
  | SubprocOutcome.raised msg => Except.error msg
  | SubprocOutcome.completed r =>
    if r.returncode == 0 && r.stdout != "" then Except.ok (known_hosts ++ r.stdout, true)
    else Except.ok (known_hosts, false)

/-- PodManager.add_to_known_hosts (lines 272-295): the try-block guarded
by the catch-all except that logs and continues (lines 294-295).  Returns
the new known_hosts content and whether an entry was appended. -/
def add_to_known_hosts (known_hosts : String) (scan : SubprocOutcome) : String × Bool :=
  match keyscan_attempt known_hosts scan with
  | Except.ok v => v
  | Except.error _ => (known_hosts, false)

/-- The text block update_ssh_config appends (lines 306-314). -/
def config_entry (pod_name pod_id ssh_host ssh_port ssh_key_path : String) : String :=
  "\n# RunPod Pod: " ++ pod_name ++
  "\nHost runpod-" ++ pod_id ++
  "\n    HostName " ++ ssh_host ++
  "\n    Port " ++ ssh_port ++
  "\n    User root\n    IdentityFile " ++ ssh_key_path ++
  "\n    StrictHostKeyChecking no\n"

/-- PodManager.update_ssh_config (lines 297-320): open the SSH config in
append mode, write the entry, and return the alias runpod-<pod-id>.
Returns the new file content and the alias. -/
def update_ssh_config (ssh_config : String) (pod_name ssh_key_path : String)
    (pod_id ssh_host ssh_port : String) : String × String :=
  (ssh_config ++ config_entry pod_name pod_id ssh_host ssh_port ssh_key_path,
   "runpod-" ++ pod_id)

/-- The try-block of test_ssh_connection (lines 341-350): run ssh with a
15 second timeout; the test passes exactly when the command completes
with return code 0. -/
def ssh_test_attempt (outcome : SubprocOutcome) : Except String Bool :=
  match outcome with
  | SubprocOutcome.raised msg => Except.error msg
  | SubprocOutcome.completed r => Except.ok (r.returncode == 0)

/-- PodManager.test_ssh_connection (lines 322-353): the try-block guarded
by the catch-all except that logs and returns False (lines 351-353). -/
def test_ssh_connection (outcome : SubprocOutcome) : Bool :=
  match ssh_test_attempt outcome with
  | Except.ok b => b
  | Except.error _ => false

/-- What spawning the editor does: the Popen call either succeeds or
raises. -/
inductive LaunchOutcome where
  | launched
  | spawnFailed (msg : String)

/-- The try-block of launch_vscode (lines 362-365). -/
def vscode_attempt : LaunchOutcome → Except String Unit
  | LaunchOutcome.launched => Except.ok ()
  | LaunchOutcome.spawnFailed msg => Except.error msg

/-- PodManager.launch_vscode (lines 355-368): the try-block guarded by
the except that logs the failure and continues (lines 366-368).  Returns
whether the editor was launched. -/
def launch_vscode (o : LaunchOutcome) : Bool :=
  match vscode_attempt o with
  | Except.ok _ => true
  | Except.error _ => false

/-- A request as assembled for requests.post: the URL, the headers and
the query parameters that carry authentication. -/
structure RequestSpec where
  url : String
  headers : List (String × String)
  params : List (String × String)

/-- The request of list_network_volumes.py (lines 27-34): bearer token in
an Authorization header, no query parameters. -/
def volumes_request (key : String) : RequestSpec :=
  { url := "https://api.runpod.io/graphql"
    headers := [("Authorization", "Bearer " ++ key), ("Content-Type", "application/json")]
    params := [] }

/-- The request of list_ssh_keys.py (lines 22-29 of that file): only a
Content-Type header; the token travels as the api_key query parameter. -/
def ssh_keys_request (key : String) : RequestSpec :=
  { url := "https://api.runpod.io/graphql"
    headers := [("Content-Type", "application/json")]
    params := [("api_key", key)] }

/-- The request of PodManager.graphql_request (start_a100_pod.py lines
60-70): only a Content-Type header; the token travels as the api_key
query parameter. -/
def pod_graphql_request_spec (key : String) : RequestSpec :=
  { url := "https://api.runpod.io/graphql"
    headers := [("Content-Type", "application/json")]
    params := [("api_key", key)] }

/-- How a request authenticates. -/
inductive AuthStyle where
  | bearerHeader
  | queryParam
  | noAuth
deriving DecidableEq, Repr

/-- Classify a request: an Authorization header means bearer-token
authentication; otherwise an api_key query parameter means
query-parameter authentication. -/
def authStyle (r : RequestSpec) : AuthStyle :=
  if r.headers.any (fun h => h.1 == "Authorization") then AuthStyle.bearerHeader
  else if r.params.any (fun p => p.1 == "api_key") then AuthStyle.queryParam
  else AuthStyle.noAuth

/-- The local files PodManager.__init__ reads: the content of the API key
file and of the SSH public key file, when they exist. -/
structure FileSystem where
  api_key_file : Option String
  ssh_pub_key_file : Option String

/-- The configuration state __init__ establishes. -/
structure PodState where
  api_key : String
  ssh_public_key : String
deriving Repr, DecidableEq

/-- PodManager.__init__ (lines 22-41): a missing API key file is fatal
(sys.exit(1), lines 30-32); a missing SSH public key file only prints a
warning and leaves the public key empty (lines 36-41).  File contents are
stripped. -/
def pod_manager_init (fs : FileSystem) : Except Nat PodState :=
  match fs.api_key_file with
  | Option.none => Except.error 1
  | Option.some k =>
    Except.ok
      { api_key := k.trim
        ssh_public_key :=
          match fs.ssh_pub_key_file with
          | Option.none => ""
          | Option.some s => s.trim }

/-- The env list built in create_pod (lines 113-118): a single PUBLIC_KEY
entry when the public key is truthy (non-empty), otherwise no entry at
all. -/
def build_env_vars (ssh_public_key : String) : List PyVal :=
  if ssh_public_key != "" then
    [PyVal.dict [("key", PyVal.str "PUBLIC_KEY"), ("value", PyVal.str ssh_public_key)]]
  else
    []

/-- The terminal state of PodManager.run: the printed connection summary
(pod id, alias, host, port), or a fatal exit. -/
inductive RunResult where
  | summary (pod_id : PyVal) (ssh_host_alias : String) (ssh_host : PyVal) (ssh_port : String)
  | exited (code : Nat)

/-- PodManager.run (lines 388-426): create the pod, run the two polling
phases (each exits fatally on timeout), then the best-effort steps -
host-key scan, SSH config append, connectivity test, editor launch - and
finally the connection summary.  `create_resp` is the response to the
deploy mutation, `pollsA` and `pollsB` the status responses the two
phases receive, and the subprocess outcomes parameterize the external
tools. -/
def run_workflow (create_resp : HttpResponse) (pollsA pollsB : Nat → HttpResponse)
    (ssh_config known_hosts pod_name ssh_key_path : String)
    (scan ssh_test : SubprocOutcome) (launch : LaunchOutcome) : RunResult :=
  match create_pod create_resp with
  | CreateResult.fatalExit c => RunResult.exited c
  | CreateResult.ok pod_id _cost =>
    match wait_for_pod_running pollsA with
    | PollOutcome.timeout _ => RunResult.exited 1
    | PollOutcome.success _ _ =>
      match get_ssh_details pollsB with
      | PollOutcome.timeout _ => RunResult.exited 1
      | PollOutcome.success (ssh_host, ssh_port) _ =>
        let _known_hosts2 := (add_to_known_hosts known_hosts scan).1
        let cfg := update_ssh_config ssh_config pod_name ssh_key_path
          (pyStr pod_id) (pyStr ssh_host) ssh_port
        let _tested := test_ssh_connection ssh_test
        let _launched := launch_vscode launch
        RunResult.summary pod_id cfg.2 ssh_host ssh_port

/-! ## Helper lemmas -/

/-- Helper: a numeric value is not None. -/
theorem PyVal.isNull_eq_false_of_isNumeric (v : PyVal) (h : v.isNumeric = true) :
    v.isNull = false := by
  cases v <;> simp [PyVal.isNumeric, PyVal.isNull] at *

/-- Helper: dict.get with a default returns the default when the key is
absent. -/
theorem PyVal.getD_of_not_hasKey (v : PyVal) (k : String) (d : PyVal)
    (h : v.hasKey k = false) : v.getD k d = d := by
  cases v with
  | dict fields =>
    have h2 : (List.lookup k fields).isSome = false := h
    show (List.lookup k fields).getD d = d
    cases hl : List.lookup k fields with
    | none => rfl
    | some w => simp [hl] at h2
  | null => rfl
  | bool b => rfl
  | int n => rfl
  | str s => rfl
  | list xs => rfl

/-- Helper: the port scan only succeeds on a non-empty ports list. -/
theorem find_ssh_port_ne_nil (ports : List PyVal) (entry : PyVal)
    (h : find_ssh_port ports = some entry) : ports ≠ [] := by
  intro hnil
  subst hnil
  simp [find_ssh_port] at h

/-! ## Claims -/

/-- Claim C3: graphql_request raises a transport error whenever the HTTP
status is not 200, and whenever the 200-status body contains an errors
field it raises a remote error carrying that payload and never returns a
(partially parsed) result, even if the body also has a data field. -/
theorem c3_graphql_request_error_paths (resp : HttpResponse) :
    (resp.status_code ≠ 200 →
      graphql_request resp = Except.error (ApiError.transport resp.status_code resp.text)) ∧
    (resp.status_code = 200 → resp.body.hasKey "errors" = true →
      graphql_request resp = Except.error (ApiError.remote (resp.body.get "errors")) ∧
      ∀ r, graphql_request resp ≠ Except.ok r) := by
  constructor
  · intro h
    simp [graphql_request, h]
  · intro h200 herr
    constructor
    · simp [graphql_request, h200, herr]
    · intro r hr
      simp [graphql_request, h200, herr] at hr

/-- A response body carrying both a data field and an errors field. -/
def c3_err_body : PyVal :=
  PyVal.dict [("data", PyVal.dict [("pod", PyVal.null)]),
              ("errors", PyVal.list [PyVal.str "boom"])]

/-- Witness for C3: a 500-status response raises a transport error, and a
200-status response whose body has both data and errors raises the
remote error with the errors payload. -/
theorem c3_graphql_request_error_paths_witness :
    graphql_request ⟨500, "server error", PyVal.null⟩ =
      Except.error (ApiError.transport 500 "server error") ∧
    graphql_request ⟨200, "", c3_err_body⟩ =
      Except.error (ApiError.remote (PyVal.list [PyVal.str "boom"])) := by
  constructor
  · exact (c3_graphql_request_error_paths ⟨500, "server error", PyVal.null⟩).1 (by decide)
  · exact ((c3_graphql_request_error_paths ⟨200, "", c3_err_body⟩).2 rfl rfl).1

/-- Claim C4: the Phase A readiness check is ready exactly when the pod
status carries a non-empty runtime sub-record, and not ready when the
runtime record is absent, null (the standard not-yet-running status, as
the query always selects runtime) or empty.  A present runtime value is
either null or a sub-record. -/
theorem c4_phaseA_ready_iff (pod_info : PyVal) (fields : List (String × PyVal))
    (hd : pod_info = PyVal.dict fields)
    (hrec : ∀ v, List.lookup "runtime" fields = some v →
      v = PyVal.null ∨ ∃ sub, v = PyVal.dict sub) :
    pod_running_check pod_info = true ↔
      ∃ sub, List.lookup "runtime" fields = some (PyVal.dict sub) ∧ sub ≠ [] := by
  subst hd
  unfold pod_running_check PyVal.get
  cases hl : List.lookup "runtime" fields with
  | none => simp [hl, PyVal.truthy]
  | some v =>
    rcases hrec v hl with rfl | ⟨sub, rfl⟩
    · simp [hl, PyVal.truthy]
    · simp [hl, PyVal.truthy]

/-- A pod status with a one-field runtime record. -/
def c4_pod_info_fields : List (String × PyVal) :=
  [("id", PyVal.str "abc123"), ("runtime", PyVal.dict [("uptimeInSeconds", PyVal.int 5)])]

/-- Witness for C4: a pod response whose runtime record has one field is
declared running, and a response carrying runtime as null - the status a
not-yet-running pod reports - is not. -/
theorem c4_phaseA_ready_iff_witness :
    pod_running_check (PyVal.dict c4_pod_info_fields) = true ∧
    pod_running_check (PyVal.dict [("runtime", PyVal.null)]) = false := by
  constructor
  · refine (c4_phaseA_ready_iff (PyVal.dict c4_pod_info_fields) c4_pod_info_fields rfl ?_).mpr
      ⟨[("uptimeInSeconds", PyVal.int 5)], rfl, List.cons_ne_nil _ _⟩
    intro v hv
    exact Or.inr ⟨[("uptimeInSeconds", PyVal.int 5)], (Option.some.inj hv).symm⟩
  · have h := c4_phaseA_ready_iff (PyVal.dict [("runtime", PyVal.null)])
      [("runtime", PyVal.null)] rfl (fun v hv => Or.inl (Option.some.inj hv).symm)
    rw [Bool.eq_false_iff]
    intro hc
    obtain ⟨sub, hs, -⟩ := h.mp hc
    exact PyVal.noConfusion (Option.some.inj hs)

/-- Claim C10: add_to_known_hosts appends the scan output exactly when
ssh-keyscan completes with return code 0 and non-empty stdout; on a
failed or empty scan, or a raised subprocess exception, the known_hosts
content is unchanged. -/
theorem c10_known_hosts_append_conditions (known_hosts : String) (scan : SubprocOutcome) :
    (∀ r, scan = SubprocOutcome.completed r →
      (r.returncode == 0 && r.stdout != "") = true →
      add_to_known_hosts known_hosts scan = (known_hosts ++ r.stdout, true)) ∧
    (∀ r, scan = SubprocOutcome.completed r →
      (r.returncode == 0 && r.stdout != "") = false →
      add_to_known_hosts known_hosts scan = (known_hosts, false)) ∧
    (∀ msg, scan = SubprocOutcome.raised msg →
      add_to_known_hosts known_hosts scan = (known_hosts, false)) := by
  refine ⟨?_, ?_, ?_⟩
  · intro r hs hc
    subst hs
    simp [add_to_known_hosts, keyscan_attempt, hc]
  · intro r hs hc
    subst hs
    simp [add_to_known_hosts, keyscan_attempt, hc]
  · intro msg hs
    subst hs
    simp [add_to_known_hosts, keyscan_attempt]

/-- Witness for C10: a clean scan appends its output, a non-zero-exit
scan and a timed-out scan leave the file as it was. -/
theorem c10_known_hosts_append_conditions_witness :
    add_to_known_hosts "old\n" (SubprocOutcome.completed ⟨0, "host key\n", ""⟩) =
      ("old\n" ++ "host key\n", true) ∧
    add_to_known_hosts "old\n" (SubprocOutcome.completed ⟨1, "", "fail"⟩) =
      ("old\n", false) ∧
    add_to_known_hosts "old\n" (SubprocOutcome.raised "TimeoutExpired") =
      ("old\n", false) := by
  refine ⟨?_, ?_, ?_⟩
  · exact (c10_known_hosts_append_conditions "old\n"
      (SubprocOutcome.completed ⟨0, "host key\n", ""⟩)).1 ⟨0, "host key\n", ""⟩ rfl (by decide)
  · exact (c10_known_hosts_append_conditions "old\n"
      (SubprocOutcome.completed ⟨1, "", "fail"⟩)).2.1 ⟨1, "", "fail"⟩ rfl (by decide)
  · exact (c10_known_hosts_append_conditions "old\n"
      (SubprocOutcome.raised "TimeoutExpired")).2.2 "TimeoutExpired" rfl

/-- Claim C7: update_ssh_config returns the alias runpod-<pod-id> and is
a pure append: after two calls for two different pod ids, the final
config is the original content followed by the first entry followed by
the second, so the first entry is still present unmodified right after
the original content. -/
theorem c7_update_ssh_config_pure_append
    (ssh_config pod_name ssh_key_path p1 h1 pt1 p2 h2 pt2 : String)
    (_hne : p1 ≠ p2) :
    (update_ssh_config ssh_config pod_name ssh_key_path p1 h1 pt1).2 = "runpod-" ++ p1 ∧
    (update_ssh_config (update_ssh_config ssh_config pod_name ssh_key_path p1 h1 pt1).1
        pod_name ssh_key_path p2 h2 pt2).1 =
      ssh_config ++ config_entry pod_name p1 h1 pt1 ssh_key_path
        ++ config_entry pod_name p2 h2 pt2 ssh_key_path ∧
    (∃ pre post,
      (update_ssh_config (update_ssh_config ssh_config pod_name ssh_key_path p1 h1 pt1).1
          pod_name ssh_key_path p2 h2 pt2).1 =
        pre ++ config_entry pod_name p1 h1 pt1 ssh_key_path ++ post ∧
      pre = ssh_config) := by
  exact ⟨rfl, rfl,
    ssh_config, config_entry pod_name p2 h2 pt2 ssh_key_path, rfl, rfl⟩

/-- Witness for C7: two appends for pod ids a and b keep the entry for a
intact right after the original content. -/
theorem c7_update_ssh_config_pure_append_witness :
    (update_ssh_config "orig" "n" "key" "a" "1.2.3.4" "40222").2 = "runpod-" ++ "a" ∧
    (update_ssh_config (update_ssh_config "orig" "n" "key" "a" "1.2.3.4" "40222").1
        "n" "key" "b" "5.6.7.8" "40333").1 =
      "orig" ++ config_entry "n" "a" "1.2.3.4" "40222" "key"
        ++ config_entry "n" "b" "5.6.7.8" "40333" "key" ∧
    (∃ pre post,
      (update_ssh_config (update_ssh_config "orig" "n" "key" "a" "1.2.3.4" "40222").1
          "n" "key" "b" "5.6.7.8" "40333").1 =
        pre ++ config_entry "n" "a" "1.2.3.4" "40222" "key" ++ post ∧
      pre = "orig") :=
  c7_update_ssh_config_pure_append "orig" "n" "key" "a" "1.2.3.4" "40222" "b" "5.6.7.8" "40333"
    (by decide)

/-- Claim C9: a missing SSH public key file is non-fatal - construction
succeeds with an empty public key and the mutation env list is then
empty, with no PUBLIC_KEY entry - while a missing API key file exits
with code 1. -/
theorem c9_missing_pub_key_nonfatal (fs : FileSystem) :
    (fs.api_key_file = Option.none → pod_manager_init fs = Except.error 1) ∧
    (∀ k, fs.api_key_file = Option.some k → fs.ssh_pub_key_file = Option.none →
      pod_manager_init fs = Except.ok ⟨k.trim, ""⟩ ∧
      build_env_vars "" = []) := by
  constructor
  · intro h
    simp [pod_manager_init, h]
  · intro k hk hp
    refine ⟨?_, rfl⟩
    simp [pod_manager_init, hk, hp]

/-- Witness for C9: no API key file exits with code 1; an API key file
without a public key file yields a state with an empty public key, whose
env list is empty. -/
theorem c9_missing_pub_key_nonfatal_witness :
    pod_manager_init ⟨Option.none, Option.some "ssh-rsa AAA"⟩ = Except.error 1 ∧
    pod_manager_init ⟨Option.some " secret ", Option.none⟩ =
      Except.ok ⟨" secret ".trim, ""⟩ ∧
    build_env_vars "" = [] := by
  refine ⟨(c9_missing_pub_key_nonfatal ⟨Option.none, Option.some "ssh-rsa AAA"⟩).1 rfl, ?_, ?_⟩
  · exact ((c9_missing_pub_key_nonfatal ⟨Option.some " secret ", Option.none⟩).2
      " secret " rfl rfl).1
  · exact ((c9_missing_pub_key_nonfatal ⟨Option.some " secret ", Option.none⟩).2
      " secret " rfl rfl).2

/-- Counterexample to C6 as stated: the SSH-key read operation
(list_ssh_keys.py) does not authenticate via a bearer-token header - it
uses the api_key query parameter, like the provisioning operations. -/
theorem c6_counterexample :
    ¬ (authStyle (volumes_request "k") = AuthStyle.bearerHeader ∧
       authStyle (ssh_keys_request "k") = AuthStyle.bearerHeader ∧
       authStyle (pod_graphql_request_spec "k") = AuthStyle.queryParam) := by
  intro h
  exact absurd h.2.1 (by decide)

/-- Claim C6 (amended): authentication is inconsistent across the
scripts, but the split is volumes-versus-the-rest: listing network
volumes sends a bearer Authorization header, while fetching the account
SSH key and all PodManager operations send the api_key query
parameter. -/
theorem c6_auth_split_amended (key : String) :
    ("Authorization", "Bearer " ++ key) ∈ (volumes_request key).headers ∧
    authStyle (volumes_request key) = AuthStyle.bearerHeader ∧
    ("api_key", key) ∈ (ssh_keys_request key).params ∧
    authStyle (ssh_keys_request key) = AuthStyle.queryParam ∧
    ("api_key", key) ∈ (pod_graphql_request_spec key).params ∧
    authStyle (pod_graphql_request_spec key) = AuthStyle.queryParam := by
  refine ⟨List.mem_cons_self _ _, rfl, List.mem_cons_self _ _, rfl,
    List.mem_cons_self _ _, rfl⟩

/-- Claim C5: for a transport-level-successful provisioning response,
create_pod returns the new pod id together with the reported hourly
cost, and exits fatally with code 1 when costPerHr is absent (None) -
create_pod performs a single request, so no retry happens in that
case. -/
theorem c5_create_pod_cost_handling (resp : HttpResponse) (result : PyVal)
    (hreq : graphql_request resp = Except.ok result)
    (hdata : result.hasKey "data" = true)
    (hpod : (result.get "data").hasKey "podFindAndDeployOnDemand" = true)
    (hid : ((result.get "data").get "podFindAndDeployOnDemand").hasKey "id" = true) :
    (((result.get "data").get "podFindAndDeployOnDemand").get "costPerHr" = PyVal.null →
      create_pod resp = CreateResult.fatalExit 1) ∧
    ((((result.get "data").get "podFindAndDeployOnDemand").get "costPerHr").isNumeric = true →
      create_pod resp = CreateResult.ok
        (((result.get "data").get "podFindAndDeployOnDemand").get "id")
        (((result.get "data").get "podFindAndDeployOnDemand").get "costPerHr")) := by
  constructor
  · intro hc
    simp [create_pod, hreq, hdata, hpod, hid, hc, PyVal.isNull]
  · intro hc
    have hnn := PyVal.isNull_eq_false_of_isNumeric _ hc
    simp [create_pod, hreq, hdata, hpod, hid, hnn, hc]

/-- A successful deploy response carrying id and costPerHr. -/
def c5_good_resp : HttpResponse :=
  ⟨200, "", PyVal.dict [("data", PyVal.dict [("podFindAndDeployOnDemand",
    PyVal.dict [("id", PyVal.str "abc123"), ("costPerHr", PyVal.int 1)])])]⟩

/-- A deploy response whose pod record has an id but no costPerHr. -/
def c5_nocost_resp : HttpResponse :=
  ⟨200, "", PyVal.dict [("data", PyVal.dict [("podFindAndDeployOnDemand",
    PyVal.dict [("id", PyVal.str "abc123")])])]⟩

/-- Witness for C5: the well-formed response yields the pod id and cost;
the response without costPerHr exits fatally with code 1. -/
theorem c5_create_pod_cost_handling_witness :
    create_pod c5_good_resp = CreateResult.ok (PyVal.str "abc123") (PyVal.int 1) ∧
    create_pod c5_nocost_resp = CreateResult.fatalExit 1 := by
  constructor
  · exact (c5_create_pod_cost_handling c5_good_resp c5_good_resp.body rfl rfl rfl rfl).2 rfl
  · exact (c5_create_pod_cost_handling c5_nocost_resp c5_nocost_resp.body rfl rfl rfl rfl).1 rfl

/-- A port-22 entry that carries a host but no publicPort at all. -/
def c1_port_entry : PyVal :=
  PyVal.dict [("privatePort", PyVal.int 22), ("ip", PyVal.str "1.2.3.4")]

/-- A pod status whose only port entry is c1_port_entry. -/
def c1_pod_info : PyVal :=
  PyVal.dict [("runtime", PyVal.dict [("uptimeInSeconds", PyVal.int 1),
    ("ports", PyVal.list [c1_port_entry])])]

/-- Counterexample to C1 as stated: a pod status whose port-22 entry has
a host but lacks the publicPort key is declared ready by the Phase B
check (with the port string defaulting to 22), instead of causing a
retry. -/
theorem c1_counterexample :
    c1_port_entry.hasKey "publicPort" = false ∧
    ssh_ready_check c1_pod_info = AttemptResult.success (PyVal.str "1.2.3.4") "22" :=
  ⟨rfl, rfl⟩

/-- Claim C1 (amended): when the status response has a truthy runtime
whose ports list contains a privatePort-22 entry, the Phase B check
succeeds exactly when that entry carries a truthy host (ip) and the
stringified publicPort - taken with default 22 when the key is absent -
is non-empty; in particular an entry with a host but no publicPort
succeeds with port string 22 rather than retrying. -/
theorem c1_ssh_ready_characterization (pod_info : PyVal) (ports : List PyVal) (entry : PyVal)
    (hrt : (pod_info.get "runtime").truthy = true)
    (hports : (pod_info.get "runtime").get "ports" = PyVal.list ports)
    (hfind : find_ssh_port ports = some entry) :
    ssh_ready_check pod_info =
      (if (entry.get "ip").truthy && (pyStr (entry.getD "publicPort" (PyVal.int 22)) != "") then
        AttemptResult.success (entry.get "ip") (pyStr (entry.getD "publicPort" (PyVal.int 22)))
      else AttemptResult.retry) ∧
    (entry.hasKey "publicPort" = false → (entry.get "ip").truthy = true →
      ssh_ready_check pod_info = AttemptResult.success (entry.get "ip") "22") := by
  have hne := find_ssh_port_ne_nil ports entry hfind
  have htr : (PyVal.list ports).truthy = true := by
    simp [PyVal.truthy, hne]
  constructor
  · unfold ssh_ready_check
    rw [hports, htr, hrt]
    rw [show (PyVal.list ports).asList = ports from rfl, hfind]
    rfl
  · intro hnk hip
    unfold ssh_ready_check
    rw [hports, htr, hrt]
    rw [show (PyVal.list ports).asList = ports from rfl, hfind]
    show (if ((entry.get "ip").truthy
        && (pyStr (entry.getD "publicPort" (PyVal.int 22)) != "")) = true then
        AttemptResult.success (entry.get "ip") (pyStr (entry.getD "publicPort" (PyVal.int 22)))
      else AttemptResult.retry) = AttemptResult.success (entry.get "ip") "22"
    rw [PyVal.getD_of_not_hasKey entry "publicPort" (PyVal.int 22) hnk]
    rw [show pyStr (PyVal.int 22) = "22" from rfl]
    simp [hip]

/-- A port-22 entry with a host and no publicPort, for the amended C1. -/
def c1w_port_entry : PyVal :=
  PyVal.dict [("privatePort", PyVal.int 22), ("ip", PyVal.str "5.6.7.8")]

/-- A pod status built around c1w_port_entry. -/
def c1w_pod_info : PyVal :=
  PyVal.dict [("runtime", PyVal.dict [("ports", PyVal.list [c1w_port_entry])])]

/-- Witness for the amended C1: the entry with host 5.6.7.8 and no
publicPort is accepted with port string 22. -/
theorem c1_ssh_ready_characterization_witness :
    ssh_ready_check c1w_pod_info = AttemptResult.success (PyVal.str "5.6.7.8") "22" :=
  (c1_ssh_ready_characterization c1w_pod_info [c1w_port_entry] c1w_port_entry
    rfl rfl rfl).2 rfl rfl

/-- A Phase A attempt that does not succeed: either get_pod_info raises
(transient, retried) or the pod has no truthy runtime yet. -/
def phaseA_not_ready (resp : HttpResponse) : Bool :=
  match get_pod_info resp with
  | Except.ok pod_info => !pod_running_check pod_info
  | Except.error _ => true

/-- Helper: a Phase A loop whose every attempt fails times out after
consuming exactly its remaining budget. -/
theorem wait_loop_timeout_of_never (responses : Nat → HttpResponse)
    (h : ∀ n, phaseA_not_ready (responses n) = true) :
    ∀ (m a : Nat), wait_loop responses a m = PollOutcome.timeout m := by
  intro m
  induction m with
  | zero => intro a; rfl
  | succ k ih =>
    intro a
    have ha := h a
    unfold phaseA_not_ready at ha
    unfold wait_loop
    cases hg : get_pod_info (responses a) with
    | error e =>
      rw [ih (a + 1)]
      rfl
    | ok pod_info =>
      rw [hg] at ha
      simp only [Bool.not_eq_true'] at ha
      show (if pod_running_check pod_info = true then PollOutcome.success () 1
        else (wait_loop responses (a + 1) k).bump) = PollOutcome.timeout (k + 1)
      rw [ha, ih (a + 1)]
      rfl

/-- Helper: a Phase B loop whose every attempt retries times out after
consuming exactly its remaining budget. -/
theorem ssh_loop_timeout_of_never (responses : Nat → HttpResponse)
    (h : ∀ n, ssh_attempt (responses n) = AttemptResult.retry) :
    ∀ (m a : Nat), ssh_loop responses a m = PollOutcome.timeout m := by
  intro m
  induction m with
  | zero => intro a; rfl
  | succ k ih =>
    intro a
    unfold ssh_loop
    rw [h a, ih (a + 1)]
    rfl

/-- Claim C2: with attempts that never succeed, Phase A times out after
exactly 60 get_pod_info calls and Phase B after exactly 40, and an API
exception during an attempt consumes exactly that one attempt of the
budget instead of being fatal. -/
theorem c2_poll_budgets_exact (responsesA responsesB : Nat → HttpResponse)
    (hA : ∀ n, phaseA_not_ready (responsesA n) = true)
    (hB : ∀ n, ssh_attempt (responsesB n) = AttemptResult.retry) :
    wait_for_pod_running responsesA = PollOutcome.timeout 60 ∧
    get_ssh_details responsesB = PollOutcome.timeout 40 ∧
    (∀ (rs : Nat → HttpResponse) (a r : Nat) (e : ApiError),
      get_pod_info (rs a) = Except.error e →
      wait_loop rs a (r + 1) = (wait_loop rs (a + 1) r).bump) := by
  refine ⟨wait_loop_timeout_of_never responsesA hA 60 1,
    ssh_loop_timeout_of_never responsesB hB 40 1, ?_⟩
  intro rs a r e he
  show (match get_pod_info (rs a) with
    | Except.ok pod_info =>
      if pod_running_check pod_info = true then PollOutcome.success () 1
      else (wait_loop rs (a + 1) r).bump
    | Except.error _ => (wait_loop rs (a + 1) r).bump) = (wait_loop rs (a + 1) r).bump
  rw [he]

/-- A status response that always fails at the transport level. -/
def c2_bad_resp : HttpResponse := ⟨500, "server error", PyVal.null⟩

/-- Witness for C2: against an API that always returns HTTP 500, Phase A
times out after exactly 60 attempts, Phase B after exactly 40, and the
first failing attempt consumes exactly one unit of budget. -/
theorem c2_poll_budgets_exact_witness :
    wait_for_pod_running (fun _ => c2_bad_resp) = PollOutcome.timeout 60 ∧
    get_ssh_details (fun _ => c2_bad_resp) = PollOutcome.timeout 40 ∧
    wait_loop (fun _ => c2_bad_resp) 1 60 =
      (wait_loop (fun _ => c2_bad_resp) 2 59).bump := by
  refine ⟨(c2_poll_budgets_exact (fun _ => c2_bad_resp) (fun _ => c2_bad_resp)
      (fun _ => rfl) (fun _ => rfl)).1,
    (c2_poll_budgets_exact (fun _ => c2_bad_resp) (fun _ => c2_bad_resp)
      (fun _ => rfl) (fun _ => rfl)).2.1,
    (c2_poll_budgets_exact (fun _ => c2_bad_resp) (fun _ => c2_bad_resp)
      (fun _ => rfl) (fun _ => rfl)).2.2 (fun _ => c2_bad_resp) 1 59
      (ApiError.transport 500 "server error") rfl⟩

/-- Claim C8: once provisioning and both polling phases succeed, the
workflow reaches the connection summary for every outcome of the
host-key scan, the SSH connectivity test and the editor launch - none of
those best-effort steps can abort it. -/
theorem c8_best_effort_never_aborts (create_resp : HttpResponse)
    (pollsA pollsB : Nat → HttpResponse)
    (ssh_config known_hosts pod_name ssh_key_path : String)
    (pod_id cost host : PyVal) (port : String) (cA cB : Nat)
    (hc : create_pod create_resp = CreateResult.ok pod_id cost)
    (hA : wait_for_pod_running pollsA = PollOutcome.success () cA)
    (hB : get_ssh_details pollsB = PollOutcome.success (host, port) cB) :
    ∀ (scan ssh_test : SubprocOutcome) (launch : LaunchOutcome),
      run_workflow create_resp pollsA pollsB ssh_config known_hosts pod_name ssh_key_path
        scan ssh_test launch =
      RunResult.summary pod_id ("runpod-" ++ pyStr pod_id) host port := by
  intro scan ssh_test launch
  unfold run_workflow
  rw [hc, hA, hB]
  rfl

/-- A deploy response the C8 witness provisions with. -/
def c8_create_resp : HttpResponse :=
  ⟨200, "", PyVal.dict [("data", PyVal.dict [("podFindAndDeployOnDemand",
    PyVal.dict [("id", PyVal.str "abc123"), ("costPerHr", PyVal.int 1)])])]⟩

/-- A status response with a running pod exposing SSH publicly. -/
def c8_status_resp : HttpResponse :=
  ⟨200, "", PyVal.dict [("data", PyVal.dict [("pod",
    PyVal.dict [("runtime", PyVal.dict [("ports", PyVal.list [
      PyVal.dict [("privatePort", PyVal.int 22), ("ip", PyVal.str "1.2.3.4"),
        ("publicPort", PyVal.int 40222), ("isIpPublic", PyVal.bool true)]])])])])]⟩

/-- Witness for C8: with a timed-out host-key scan, a failing SSH test
and a failing editor spawn, the workflow still ends in the connection
summary. -/
theorem c8_best_effort_never_aborts_witness :
    run_workflow c8_create_resp (fun _ => c8_status_resp) (fun _ => c8_status_resp)
      "cfg" "kh" "pod-name" "/home/u/.ssh/id_rsa"
      (SubprocOutcome.raised "TimeoutExpired")
      (SubprocOutcome.completed ⟨255, "", "Connection refused"⟩)
      (LaunchOutcome.spawnFailed "code not found") =
    RunResult.summary (PyVal.str "abc123") ("runpod-" ++ pyStr (PyVal.str "abc123"))
      (PyVal.str "1.2.3.4") "40222" :=
  c8_best_effort_never_aborts c8_create_resp (fun _ => c8_status_resp) (fun _ => c8_status_resp)
    "cfg" "kh" "pod-name" "/home/u/.ssh/id_rsa"
    (PyVal.str "abc123") (PyVal.int 1) (PyVal.str "1.2.3.4") "40222" 1 1
    rfl rfl rfl
    (SubprocOutcome.raised "TimeoutExpired")
    (SubprocOutcome.completed ⟨255, "", "Connection refused"⟩)
    (LaunchOutcome.spawnFailed "code not found")

end Runpod
